import Mathlib

/-!
Verification development for the nnet3 per-minibatch trainer
(`src/src/nnet3/nnet-training.cc`).

The embedding models floating-point values as rationals, matrices as lists
of rows, the stateful trainer as explicit state passing, and fatal errors
(`KALDI_ERR` / failed `KALDI_ASSERT`) as `Option.none`.  External
collaborators (the compute-graph executor, the matrix kernels, the
natural-gradient toggle, logging) are modelled as pure functions or as
recorded events; their internals are out of scope per the specification.
-/

namespace KaldiNnet3

/-- Scalar type of the source (`BaseFloat`), modelled as `ℚ`. -/
abbrev BaseFloat := ℚ

/-! ### Dense matrices

A `Matrix<BaseFloat>` / `CuMatrix<BaseFloat>`: a column count plus a list of
rows.  The column count is carried explicitly (as in the source, where a
matrix with zero rows still has a well-defined `NumCols()`). -/

structure DenseM where
  numCols : Nat
  rows : List (List BaseFloat)
  deriving DecidableEq

/-- `NumRows()` of a dense matrix. -/
def DenseM.numRows (m : DenseM) : Nat := m.rows.length

/-- Shape well-formedness: every row has length `numCols`. -/
def DenseM.WF (m : DenseM) : Prop := ∀ r ∈ m.rows, r.length = m.numCols

/-- `CuMatrixBase::Sum()`: the sum of all entries. -/
def matSum (m : DenseM) : BaseFloat := (m.rows.map List.sum).sum

/-- Dot product of two rows (truncating at the shorter row, as `zipWith` does;
the source kernels assert equal dimensions, which callers here ensure). -/
def dotRow (a b : List BaseFloat) : BaseFloat := (List.zipWith (fun x y => x * y) a b).sum

/-- `TraceMatMat(A, B, kTrans)`: the elementwise dot product `Σᵢⱼ Aᵢⱼ·Bᵢⱼ`. -/
def traceMatMat (a b : DenseM) : BaseFloat := (List.zipWith dotRow a.rows b.rows).sum

/-- Elementwise difference `a - b` (the source's copy of `a` followed by
`AddMat(-1.0, b)`); the result keeps `a`'s column count. -/
def matSub (a b : DenseM) : DenseM :=
  ⟨a.numCols, List.zipWith (List.zipWith (fun x y => x - y)) a.rows b.rows⟩

/-- Sum of the squares of all entries of a matrix. -/
def sumSq (m : DenseM) : BaseFloat :=
  (m.rows.map (fun r => (r.map (fun x => x * x)).sum)).sum

/-! ### Sparse matrices

A `SparseMatrix<BaseFloat>`: a column count plus, per row, a list of
`(column, value)` pairs.  The source's `SparseVector` keeps its pairs with
distinct in-range column indices; that invariant is `SparseM.WF`. -/

structure SparseM where
  numCols : Nat
  rows : List (List (Nat × BaseFloat))
  deriving DecidableEq

/-- The `SparseVector` invariant: column indices are in range and distinct. -/
def SparseM.WF (m : SparseM) : Prop :=
  ∀ row ∈ m.rows, (∀ p ∈ row, p.1 < m.numCols) ∧ (row.map Prod.fst).Nodup

/-- Value stored at column `j` of a sparse row (`0` when absent). -/
def sparseLookup (pairs : List (Nat × BaseFloat)) (j : Nat) : BaseFloat :=
  ((pairs.find? (fun p => p.1 == j)).map (fun p => p.2)).getD 0

/-- One row of `CuSparseMatrix::CopyToMat`: materialize a sparse row into a
dense row of length `nc`. -/
def toDenseRow (nc : Nat) (pairs : List (Nat × BaseFloat)) : List BaseFloat :=
  (List.range nc).map (sparseLookup pairs)

/-- `CuSparseMatrix::CopyToMat`: dense materialization of a sparse matrix. -/
def SparseM.toDense (m : SparseM) : DenseM :=
  ⟨m.numCols, m.rows.map (toDenseRow m.numCols)⟩

/-- `CuSparseMatrix::Sum()`: the sum of all stored values. -/
def sparseSum (m : SparseM) : BaseFloat :=
  (m.rows.map (fun r => (r.map (fun p => p.2)).sum)).sum

/-- `TraceMatSmat(output, post, kTrans)`: `Σ` over stored entries `(i, c, v)`
of `output[i][c] · v`. -/
def traceMatSmat (out : DenseM) (m : SparseM) : BaseFloat :=
  (List.zipWith (fun orow prow => (prow.map (fun p => orow.getD p.1 0 * p.2)).sum)
    out.rows m.rows).sum

/-! ### General matrices and objective kinds -/

/-- `GeneralMatrix`: the three supervision encodings.  The compressed codec
itself lives outside `src/`; per the spec it is a lossy encoding
"materialized to dense on demand", so `compressedMat` is modelled by the
dense matrix its `GetMatrix` call materializes to. -/
inductive GeneralMatrix where
  | sparseMat (m : SparseM)
  | fullMat (m : DenseM)
  | compressedMat (m : DenseM)
  deriving DecidableEq

/-- `GeneralMatrix::NumCols()`. -/
def GeneralMatrix.NumCols : GeneralMatrix → Nat
  | .sparseMat m => m.numCols
  | .fullMat m => m.numCols
  | .compressedMat m => m.numCols

/-- `GeneralMatrix::NumRows()`. -/
def GeneralMatrix.NumRows : GeneralMatrix → Nat
  | .sparseMat m => m.rows.length
  | .fullMat m => m.rows.length
  | .compressedMat m => m.rows.length

/-- `CuMatrix::CopyFromGeneralMat` / `GeneralMatrix::GetMatrix`: dense
materialization of any encoding. -/
def GeneralMatrix.toDense : GeneralMatrix → DenseM
  | .sparseMat m => m.toDense
  | .fullMat m => m
  | .compressedMat m => m

/-- Modelled from the spec: the objective-kind enumeration (`ObjectiveType`)
is declared in a header outside `src/`.  The spec's dispatch has cases
Linear, Quadratic, and "any other kind → fatal configuration error"; that
open remainder is modelled by the explicit constructor `kOther`. -/
inductive ObjectiveType where
  | kLinear
  | kQuadratic
  | kOther
  deriving DecidableEq

/-- `ComputeObjectiveFunction` (src lines 360-435).  The result is
`some (tot_weight, tot_objf, fed_back_derivative)`; `none` models the fatal
`KALDI_ERR` paths (column-count mismatch, unhandled objective kind).  The
derivative component is `some` exactly when `supply_deriv` is set, holding
the matrix passed to `computer->AcceptInput`. -/
def ComputeObjectiveFunction (supervision : GeneralMatrix)
    (objective_type : ObjectiveType) (supply_deriv : Bool) (output : DenseM) :
    Option (BaseFloat × BaseFloat × Option DenseM) :=
  if output.numCols ≠ supervision.NumCols then
    none
  else
    match objective_type with
    | .kLinear =>
      match supervision with
      | .sparseMat post =>
          some (sparseSum post, traceMatSmat output post,
                if supply_deriv then some post.toDense else none)
      | .fullMat post =>
          some (matSum post, traceMatMat output post,
                if supply_deriv then some post else none)
      | .compressedMat postc =>
          some (matSum postc, traceMatMat output postc,
                if supply_deriv then some postc else none)
    | .kQuadratic =>
        let diff := matSub supervision.toDense output
        some ((supervision.NumRows : BaseFloat),
              -(1/2) * traceMatMat diff diff,
              if supply_deriv then some diff else none)
    | .kOther => none

/-! ### Trainer configuration and state -/

/-- The configuration fields of `NnetTrainerOptions` that the modelled code
paths read.  Executor/compiler/cache options are opaque externals. -/
structure NnetTrainerOptions where
  momentum : BaseFloat
  max_param_change : BaseFloat
  backstitch_training_scale : BaseFloat
  backstitch_training_interval : Nat
  print_interval : Nat
  deriving DecidableEq

/-- The trainer state the modelled code paths mutate: the lifetime minibatch
counter and the base seed `srand_seed_` drawn at construction. -/
structure TrainerState where
  num_minibatches_processed : Nat
  srand_seed : Nat
  deriving DecidableEq

/-- The backstitch-boundary test of src lines 67-68 and 106-107:
`backstitch_training_scale > 0.0 && num_minibatches_processed_ %
backstitch_training_interval == 0`. -/
def isBackstitchBoundary (config : NnetTrainerOptions) (num : Nat) : Prop :=
  0 < config.backstitch_training_scale ∧ num % config.backstitch_training_interval = 0

instance (config : NnetTrainerOptions) (num : Nat) :
    Decidable (isBackstitchBoundary config num) := by
  unfold isBackstitchBoundary; infer_instance

/-- `NnetTrainer::NnetTrainer` (src lines 28-56): the constructor asserts
`momentum >= 0.0 && max_param_change >= 0.0` (a failed `KALDI_ASSERT` is
fatal, modelled as `none`) and starts the minibatch counter at `0` with the
drawn base seed.  Zeroing component stats, copying the delta model and cache
reading touch only external collaborators and carry no modelled state. -/
def NnetTrainer.construct (config : NnetTrainerOptions) (srand_seed : Nat) :
    Option TrainerState :=
  if 0 ≤ config.momentum ∧ 0 ≤ config.max_param_change then
    some { num_minibatches_processed := 0, srand_seed := srand_seed }
  else
    none

/-- Observable actions of one `Train` call, in program order: the
natural-gradient freeze toggle, `srand(..)` reseeding, `ResetGenerators`,
and each `TrainInternal` sub-step with its `is_backstitch_step` tag. -/
inductive TrainEvent where
  | freezeNaturalGradient (freeze : Bool)
  | srandCall (seed : Nat)
  | resetGenerators
  | trainInternal (is_backstitch_step : Bool)
  deriving DecidableEq

/-- `NnetTrainer::Train` (src lines 59-88): on a backstitch boundary the
`KALDI_ASSERT(config_.momentum == 0.0)` fires first (`none` when violated),
then the backstitch pair runs with identical reseeding before each sub-step;
otherwise a single conventional sub-step runs.  The compile/execute plumbing
is external and event-free.  Returns the emitted events and the state with
the lifetime counter incremented. -/
def NnetTrainer.Train (config : NnetTrainerOptions) (s : TrainerState) :
    Option (List TrainEvent × TrainerState) :=
  if isBackstitchBoundary config s.num_minibatches_processed then
    if config.momentum = 0 then
      some ([TrainEvent.freezeNaturalGradient true,
             TrainEvent.srandCall (s.srand_seed + s.num_minibatches_processed),
             TrainEvent.resetGenerators,
             TrainEvent.trainInternal true,
             TrainEvent.freezeNaturalGradient false,
             TrainEvent.srandCall (s.srand_seed + s.num_minibatches_processed),
             TrainEvent.resetGenerators,
             TrainEvent.trainInternal false],
            { s with num_minibatches_processed := s.num_minibatches_processed + 1 })
    else
      none
  else
    some ([TrainEvent.trainInternal false],
          { s with num_minibatches_processed := s.num_minibatches_processed + 1 })

/-- The effective update parameters `(max_change_scale, scale_adding,
scale_delta_nnet)` computed by `NnetTrainer::TrainInternal`
(src lines 102-123). -/
def trainInternalScales (config : NnetTrainerOptions)
    (num_minibatches_processed : Nat) (is_backstitch_step : Bool) :
    BaseFloat × BaseFloat × BaseFloat :=
  if isBackstitchBoundary config num_minibatches_processed then
    if is_backstitch_step then
      (config.backstitch_training_scale, -config.backstitch_training_scale, 0)
    else
      (1 + config.backstitch_training_scale, 1 + config.backstitch_training_scale, 0)
  else
    (1, 1 - config.momentum, config.momentum)

/-- `ScaleNnet(c, delta_nnet_)`: scale every learnable parameter of the delta
model (flattened to a list) by `c`. -/
def ScaleNnet (c : BaseFloat) (delta_nnet : List BaseFloat) : List BaseFloat :=
  delta_nnet.map (fun x => c * x)

/-- The tail of `NnetTrainer::TrainInternal` (src lines 125-132): after
`UpdateNnetWithMaxChange` reports `success`, the delta model is scaled by
`scale_delta_nnet`; on failure it is scaled by `0.0`. -/
def trainInternalDeltaAfter (success : Bool) (scale_delta_nnet : BaseFloat)
    (delta_nnet : List BaseFloat) : List BaseFloat :=
  if success then ScaleNnet scale_delta_nnet delta_nnet
  else ScaleNnet 0 delta_nnet

/-! ### Objective-function statistics -/

/-- The accumulator fields of `ObjectiveFunctionInfo`. -/
structure ObjectiveFunctionInfo where
  current_phase : Nat
  tot_weight : BaseFloat
  tot_objf : BaseFloat
  tot_aux_objf : BaseFloat
  tot_weight_this_phase : BaseFloat
  tot_objf_this_phase : BaseFloat
  tot_aux_objf_this_phase : BaseFloat
  deriving DecidableEq

/-- Modelled from the spec: the initial `ObjectiveFunctionInfo` (its in-class
initializers live in the header, which is outside `src/`).  Per the spec the
phase index starts at `0` and all running totals start empty. -/
def ObjectiveFunctionInfo.init : ObjectiveFunctionInfo :=
  { current_phase := 0, tot_weight := 0, tot_objf := 0, tot_aux_objf := 0,
    tot_weight_this_phase := 0, tot_objf_this_phase := 0,
    tot_aux_objf_this_phase := 0 }

/-- What one `PrintStatsForThisPhase` log line reports (src lines 309-331):
the minibatch range of the completed phase and the per-unit-weight averages.
(When the auxiliary total is zero the source prints the shorter form; both
forms report these same quantities.) -/
structure FlushRecord where
  start_minibatch : Nat
  end_minibatch : Nat
  avg_objf : BaseFloat
  avg_aux_objf : BaseFloat
  deriving DecidableEq

/-- `ObjectiveFunctionInfo::PrintStatsForThisPhase` (src lines 309-331). -/
def ObjectiveFunctionInfo.PrintStatsForThisPhase (info : ObjectiveFunctionInfo)
    (minibatches_per_phase : Nat) : FlushRecord :=
  { start_minibatch := info.current_phase * minibatches_per_phase,
    end_minibatch := info.current_phase * minibatches_per_phase + minibatches_per_phase - 1,
    avg_objf := info.tot_objf_this_phase / info.tot_weight_this_phase,
    avg_aux_objf := info.tot_aux_objf_this_phase / info.tot_weight_this_phase }

/-- `ObjectiveFunctionInfo::UpdateStats` (src lines 285-307).  `none` models
the fatal `KALDI_ASSERT(phase > current_phase)` when the computed phase moved
backward.  On a phase advance the completed phase is flushed (the emitted
`FlushRecord`), the phase accumulators are reset to zero, and then this
minibatch's contributions are accumulated into phase and lifetime totals. -/
def ObjectiveFunctionInfo.UpdateStats (info : ObjectiveFunctionInfo)
    (minibatches_per_phase minibatch_counter : Nat)
    (this_minibatch_weight this_minibatch_tot_objf
     this_minibatch_tot_aux_objf : BaseFloat) :
    Option (ObjectiveFunctionInfo × Option FlushRecord) :=
  let phase := minibatch_counter / minibatches_per_phase
  if phase = info.current_phase then
    some ({ info with
            tot_weight_this_phase := info.tot_weight_this_phase + this_minibatch_weight,
            tot_objf_this_phase := info.tot_objf_this_phase + this_minibatch_tot_objf,
            tot_aux_objf_this_phase :=
              info.tot_aux_objf_this_phase + this_minibatch_tot_aux_objf,
            tot_weight := info.tot_weight + this_minibatch_weight,
            tot_objf := info.tot_objf + this_minibatch_tot_objf,
            tot_aux_objf := info.tot_aux_objf + this_minibatch_tot_aux_objf }, none)
  else if info.current_phase < phase then
    some ({ current_phase := phase,
            tot_weight_this_phase := 0 + this_minibatch_weight,
            tot_objf_this_phase := 0 + this_minibatch_tot_objf,
            tot_aux_objf_this_phase := 0 + this_minibatch_tot_aux_objf,
            tot_weight := info.tot_weight + this_minibatch_weight,
            tot_objf := info.tot_objf + this_minibatch_tot_objf,
            tot_aux_objf := info.tot_aux_objf + this_minibatch_tot_aux_objf },
          some (info.PrintStatsForThisPhase minibatches_per_phase))
  else
    none

/-- `ObjectiveFunctionInfo::PrintTotalStats` (src lines 333-349): its return
value, `tot_weight != 0.0`. -/
def ObjectiveFunctionInfo.PrintTotalStats (info : ObjectiveFunctionInfo) : Bool :=
  decide (info.tot_weight ≠ 0)

/-- `NnetTrainer::PrintTotalStats` (src lines 232-255): the objective-map
entries are or-folded into `ans`, then the source sets `ans = false` before
or-folding the accuracy-map entries, so only the accuracy fold survives into
the returned value. -/
def NnetTrainer.PrintTotalStats
    (objf_info accuracy_info : List ObjectiveFunctionInfo) : Bool :=
  let ans := objf_info.foldl (fun a info => a || info.PrintTotalStats) false
  let ans := accuracy_info.foldl (fun a info => a || info.PrintTotalStats) false
  ans

/-- Drive `UpdateStats` over a list of minibatch counters with constant
per-minibatch `(weight, objf)` and zero auxiliary objective, collecting every
emitted flush; `none` as soon as one call is fatal. -/
def runUpdates (minibatches_per_phase : Nat) (w o : BaseFloat) :
    ObjectiveFunctionInfo → List Nat →
    Option (ObjectiveFunctionInfo × List FlushRecord)
  | info, [] => some (info, [])
  | info, c :: cs =>
    match info.UpdateStats minibatches_per_phase c w o 0 with
    | none => none
    | some (info', fl) =>
      match runUpdates minibatches_per_phase w o info' cs with
      | none => none
      | some (info'', fls) => some (info'', fl.toList ++ fls)

/-- Number of counters accumulated into the current (unflushed) phase after
counters `0 .. N-1` with phase size `K`. -/
def phaseCount (K N : Nat) : Nat := N - ((N - 1) / K) * K

/-- The statistics state after feeding counters `0 .. N-1` (for `N ≥ 1`,
`K ≥ 1`) with constant `(w, o)` per minibatch. -/
def stateAfter (K : Nat) (w o : BaseFloat) (N : Nat) : ObjectiveFunctionInfo :=
  { current_phase := (N - 1) / K,
    tot_weight := (N : BaseFloat) * w,
    tot_objf := (N : BaseFloat) * o,
    tot_aux_objf := 0,
    tot_weight_this_phase := (phaseCount K N : BaseFloat) * w,
    tot_objf_this_phase := (phaseCount K N : BaseFloat) * o,
    tot_aux_objf_this_phase := 0 }

/-- The flush emitted for completed phase `p` under constant `(w, o)`:
minibatch range `[p·K, p·K + K - 1]` and the averaged phase totals. -/
def flushSpec (K : Nat) (w o : BaseFloat) (p : Nat) : FlushRecord :=
  { start_minibatch := p * K,
    end_minibatch := p * K + K - 1,
    avg_objf := ((K : BaseFloat) * o) / ((K : BaseFloat) * w),
    avg_aux_objf := 0 / ((K : BaseFloat) * w) }

/-! ### Concrete example values used by witnesses and counterexamples -/

/-- A configuration with backstitch enabled and zero momentum. -/
def exCfgBackstitch : NnetTrainerOptions :=
  { momentum := 0, max_param_change := 2, backstitch_training_scale := 1/2,
    backstitch_training_interval := 1, print_interval := 100 }

/-- A configuration with both `momentum > 0` and `backstitch_training_scale
> 0`. -/
def exCfgBadPair : NnetTrainerOptions :=
  { momentum := 1/2, max_param_change := 2, backstitch_training_scale := 1/2,
    backstitch_training_interval := 1, print_interval := 100 }

/-- A fresh trainer state with base seed `7`. -/
def exSt0 : TrainerState := { num_minibatches_processed := 0, srand_seed := 7 }

/-- `exSt0` after one `Train` call. -/
def exSt1 : TrainerState := { num_minibatches_processed := 1, srand_seed := 7 }

/-- The event trace of a backstitch-boundary `Train` call from `exSt0`. -/
def exEvB : List TrainEvent :=
  [TrainEvent.freezeNaturalGradient true, TrainEvent.srandCall 7,
   TrainEvent.resetGenerators, TrainEvent.trainInternal true,
   TrainEvent.freezeNaturalGradient false, TrainEvent.srandCall 7,
   TrainEvent.resetGenerators, TrainEvent.trainInternal false]

/-- The spec's 1×4 Linear example, sparse encoding: probability mass `1.0`
at column `2`. -/
def exSparse : SparseM := ⟨4, [[(2, 1)]]⟩

/-- The spec's 1×4 Linear example, dense encoding `[0,0,1,0]`. -/
def exDense : DenseM := ⟨4, [[0, 0, 1, 0]]⟩

/-- A 1×4 model output for the Linear example. -/
def exOut : DenseM := ⟨4, [[10, 20, 30, 40]]⟩

/-- A 1×2 quadratic supervision example. -/
def exSupQ : DenseM := ⟨2, [[1, 2]]⟩

/-- A 1×2 model output for the quadratic example. -/
def exOutQ : DenseM := ⟨2, [[0, 0]]⟩

/-! ### Helper lemmas -/

theorem list_sum_range (f : Nat → BaseFloat) (n : Nat) :
    ((List.range n).map f).sum = ∑ j ∈ Finset.range n, f j := by
  induction n with
  | zero => simp
  | succ n ih =>
    rw [List.range_succ, Finset.sum_range_succ, List.map_append, List.sum_append, ih]
    simp

theorem sparseLookup_cons (c : Nat) (v : BaseFloat)
    (t : List (Nat × BaseFloat)) (j : Nat) :
    sparseLookup ((c, v) :: t) j = if c = j then v else sparseLookup t j := by
  by_cases h : c = j
  · subst h
    simp only [sparseLookup, if_pos rfl]
    rw [List.find?_cons_of_pos _ (by simp)]
    rfl
  · simp only [sparseLookup, if_neg h]
    rw [List.find?_cons_of_neg _ (by simp [h])]

theorem sparseLookup_eq_zero (t : List (Nat × BaseFloat)) (j : Nat)
    (h : j ∉ t.map Prod.fst) : sparseLookup t j = 0 := by
  have hf : t.find? (fun p => p.1 == j) = none := by
    rw [List.find?_eq_none]
    intro p hp
    simp only [beq_iff_eq]
    intro hpj
    exact h (List.mem_map.mpr ⟨p, hp, hpj⟩)
  simp [sparseLookup, hf]

theorem sum_range_sparseLookup (g : Nat → BaseFloat → BaseFloat)
    (hg : ∀ j, g j 0 = 0) :
    ∀ (pairs : List (Nat × BaseFloat)) (nc : Nat),
      (∀ p ∈ pairs, p.1 < nc) → (pairs.map Prod.fst).Nodup →
      (∑ j ∈ Finset.range nc, g j (sparseLookup pairs j))
        = (pairs.map (fun p => g p.1 p.2)).sum := by
  intro pairs
  induction pairs with
  | nil =>
    intro nc _ _
    simp [sparseLookup, hg]
  | cons hd t ih =>
    intro nc hlt hnd
    obtain ⟨c, v⟩ := hd
    have hc : c < nc := hlt (c, v) (by simp)
    rw [List.map_cons] at hnd
    have hnd0 := List.nodup_cons.mp hnd
    have hnotin : c ∉ t.map Prod.fst := hnd0.1
    have hnd' : (t.map Prod.fst).Nodup := hnd0.2
    have hlt' : ∀ p ∈ t, p.1 < nc := fun p hp => hlt p (List.mem_cons_of_mem _ hp)
    calc (∑ j ∈ Finset.range nc, g j (sparseLookup ((c, v) :: t) j))
        = ∑ j ∈ Finset.range nc,
            ((if c = j then g j v - g j (sparseLookup t j) else 0)
              + g j (sparseLookup t j)) := by
          refine Finset.sum_congr rfl fun j _ => ?_
          rw [sparseLookup_cons]
          by_cases h : c = j <;> simp [h]
      _ = (if c ∈ Finset.range nc then g c v - g c (sparseLookup t c) else 0)
            + ∑ j ∈ Finset.range nc, g j (sparseLookup t j) := by
          rw [Finset.sum_add_distrib, Finset.sum_ite_eq]
      _ = g c v + (t.map (fun p => g p.1 p.2)).sum := by
          rw [ih nc hlt' hnd', sparseLookup_eq_zero t c hnotin, hg]
          simp [Finset.mem_range, hc]
      _ = (((c, v) :: t).map (fun p => g p.1 p.2)).sum := by simp

theorem toDenseRow_sum (nc : Nat) (pairs : List (Nat × BaseFloat))
    (hlt : ∀ p ∈ pairs, p.1 < nc) (hnd : (pairs.map Prod.fst).Nodup) :
    (toDenseRow nc pairs).sum = (pairs.map (fun p => p.2)).sum := by
  rw [toDenseRow, list_sum_range]
  exact sum_range_sparseLookup (fun _ x => x) (fun _ => rfl) pairs nc hlt hnd

theorem zipWith_mul_toDenseRow (orow : List BaseFloat) (nc : Nat)
    (pairs : List (Nat × BaseFloat)) (hlen : orow.length = nc) :
    List.zipWith (fun x y => x * y) orow (toDenseRow nc pairs)
      = (List.range nc).map (fun j => orow.getD j 0 * sparseLookup pairs j) := by
  apply List.ext_getElem
  · simp [toDenseRow, hlen]
  · intro i h1 h2
    have hi : i < nc := by simpa using h2
    have hio : i < orow.length := by omega
    simp [toDenseRow, List.getD_eq_getElem?_getD, List.getElem?_eq_getElem hio]

theorem dotRow_toDenseRow (orow : List BaseFloat) (nc : Nat)
    (pairs : List (Nat × BaseFloat)) (hlen : orow.length = nc)
    (hlt : ∀ p ∈ pairs, p.1 < nc) (hnd : (pairs.map Prod.fst).Nodup) :
    dotRow orow (toDenseRow nc pairs)
      = (pairs.map (fun p => orow.getD p.1 0 * p.2)).sum := by
  rw [dotRow, zipWith_mul_toDenseRow orow nc pairs hlen, list_sum_range]
  exact sum_range_sparseLookup (fun j x => orow.getD j 0 * x)
    (fun j => mul_zero _) pairs nc hlt hnd

theorem zipWith_congr_mem {α β γ : Type _} (f g : α → β → γ) :
    ∀ (l1 : List α) (l2 : List β),
      (∀ a ∈ l1, ∀ b ∈ l2, f a b = g a b) →
      List.zipWith f l1 l2 = List.zipWith g l1 l2 := by
  intro l1
  induction l1 with
  | nil => intro l2 _; simp
  | cons a t ih =>
    intro l2 h
    cases l2 with
    | nil => simp
    | cons b t2 =>
      simp only [List.zipWith_cons_cons]
      rw [h a (by simp) b (by simp),
          ih t2 (fun x hx y hy => h x (by simp [hx]) y (by simp [hy]))]

theorem traceMatSmat_eq_toDense (out : DenseM) (sm : SparseM)
    (hwf : sm.WF) (hout : out.WF) (hcols : out.numCols = sm.numCols) :
    traceMatSmat out sm = traceMatMat out sm.toDense := by
  unfold traceMatSmat traceMatMat SparseM.toDense
  rw [List.zipWith_map_right]
  congr 1
  apply zipWith_congr_mem
  intro orow ho prow hp
  have hlen : orow.length = sm.numCols := by rw [hout orow ho, hcols]
  exact (dotRow_toDenseRow orow sm.numCols prow hlen
    ((hwf prow hp).1) ((hwf prow hp).2)).symm

theorem matSum_toDense (sm : SparseM) (hwf : sm.WF) :
    matSum sm.toDense = sparseSum sm := by
  unfold matSum SparseM.toDense sparseSum
  rw [List.map_map]
  congr 1
  apply List.map_congr_left
  intro r hr
  exact toDenseRow_sum sm.numCols r ((hwf r hr).1) ((hwf r hr).2)

theorem zipWith_self_eq_map {α β : Type _} (f : α → α → β) :
    ∀ l : List α, List.zipWith f l l = l.map (fun a => f a a) := by
  intro l
  induction l with
  | nil => rfl
  | cons a t ih => simp [ih]

theorem traceMatMat_self (d : DenseM) : traceMatMat d d = sumSq d := by
  unfold traceMatMat sumSq
  rw [zipWith_self_eq_map]
  congr 1
  apply List.map_congr_left
  intro r _
  unfold dotRow
  rw [zipWith_self_eq_map]

theorem sumSq_matSub_self (m : DenseM) : sumSq (matSub m m) = 0 := by
  unfold sumSq matSub
  rw [zipWith_self_eq_map, List.map_map]
  apply List.sum_eq_zero
  intro x hx
  simp only [List.mem_map, Function.comp] at hx
  obtain ⟨r, _, rfl⟩ := hx
  rw [zipWith_self_eq_map]
  apply List.sum_eq_zero
  intro y hy
  simp only [List.map_map, List.mem_map, Function.comp] at hy
  obtain ⟨z, _, rfl⟩ := hy
  simp

theorem foldl_or_any {α : Type _} (p : α → Bool) :
    ∀ (l : List α) (b : Bool),
      l.foldl (fun a x => a || p x) b = (b || l.any p) := by
  intro l
  induction l with
  | nil => intro b; simp
  | cons a t ih => intro b; simp [ih, Bool.or_assoc]

theorem runUpdates_append (K : Nat) (w o : BaseFloat) (l1 l2 : List Nat) :
    ∀ info, runUpdates K w o info (l1 ++ l2) =
      match runUpdates K w o info l1 with
      | none => none
      | some (info1, f1) =>
        match runUpdates K w o info1 l2 with
        | none => none
        | some (info2, f2) => some (info2, f1 ++ f2) := by
  induction l1 with
  | nil =>
    intro info
    cases hr : runUpdates K w o info l2 with
    | none => simp [runUpdates, hr]
    | some r =>
      obtain ⟨i2, f2⟩ := r
      simp [runUpdates, hr]
  | cons c t ih =>
    intro info
    simp only [List.cons_append, runUpdates]
    cases hu : info.UpdateStats K c w o 0 with
    | none => simp
    | some r =>
      obtain ⟨info', fl⟩ := r
      simp only [List.append_eq]
      rw [ih info']
      cases h1 : runUpdates K w o info' t with
      | none => simp
      | some r1 =>
        obtain ⟨i1, f1⟩ := r1
        cases h2 : runUpdates K w o i1 l2 with
        | none => simp [h2]
        | some r2 =>
          obtain ⟨i2, f2⟩ := r2
          simp [h2, List.append_assoc]

theorem stateAfter_one (K : Nat) (w o : BaseFloat) :
    runUpdates K w o ObjectiveFunctionInfo.init (List.range 1) =
      some (stateAfter K w o 1, []) := by
  have h0 : (0 : Nat) / K = 0 := Nat.zero_div K
  simp [List.range_succ, runUpdates, ObjectiveFunctionInfo.UpdateStats,
        ObjectiveFunctionInfo.init, stateAfter, phaseCount, h0]

theorem runUpdates_single (K c : Nat) (w o : BaseFloat)
    (info : ObjectiveFunctionInfo) :
    runUpdates K w o info [c] =
      match info.UpdateStats K c w o 0 with
      | none => none
      | some (info', fl) => some (info', fl.toList) := by
  cases hu : info.UpdateStats K c w o 0 with
  | none => simp [runUpdates, hu]
  | some r =>
    obtain ⟨i, f⟩ := r
    simp [runUpdates, hu]

theorem UpdateStats_same_phase (info : ObjectiveFunctionInfo) (K c : Nat)
    (w o a : BaseFloat) (h : c / K = info.current_phase) :
    info.UpdateStats K c w o a =
      some ({ info with
              tot_weight_this_phase := info.tot_weight_this_phase + w,
              tot_objf_this_phase := info.tot_objf_this_phase + o,
              tot_aux_objf_this_phase := info.tot_aux_objf_this_phase + a,
              tot_weight := info.tot_weight + w,
              tot_objf := info.tot_objf + o,
              tot_aux_objf := info.tot_aux_objf + a }, none) := by
  simp only [ObjectiveFunctionInfo.UpdateStats]
  rw [if_pos h]

theorem UpdateStats_advance_phase (info : ObjectiveFunctionInfo) (K c : Nat)
    (w o a : BaseFloat) (h1 : ¬ c / K = info.current_phase)
    (h2 : info.current_phase < c / K) :
    info.UpdateStats K c w o a =
      some ({ current_phase := c / K,
              tot_weight_this_phase := 0 + w,
              tot_objf_this_phase := 0 + o,
              tot_aux_objf_this_phase := 0 + a,
              tot_weight := info.tot_weight + w,
              tot_objf := info.tot_objf + o,
              tot_aux_objf := info.tot_aux_objf + a },
            some (info.PrintStatsForThisPhase K)) := by
  simp only [ObjectiveFunctionInfo.UpdateStats]
  rw [if_neg h1, if_pos h2]

theorem UpdateStats_backward_phase (info : ObjectiveFunctionInfo) (K c : Nat)
    (w o a : BaseFloat) (h : c / K < info.current_phase) :
    info.UpdateStats K c w o a = none := by
  simp only [ObjectiveFunctionInfo.UpdateStats]
  rw [if_neg (by omega), if_neg (by omega)]

/-- C8 (amended): for every `N ≥ 1` and `K ≥ 1`, feeding `UpdateStats` the
minibatch counters `0, 1, ..., N-1` with `minibatchesPerPhase = K` and
constant `(weight, objf)` produces exactly `⌊(N-1)/K⌋` phase flushes (not
`⌊N/K⌋`: the flush of a completed phase is emitted only when the first
minibatch of a later phase arrives), and the flush of phase `p` reports the
minibatch range `[p·K, (p+1)·K − 1]`, as `flushSpec` records. -/
theorem update_stats_phase_flushes (K : Nat) (hK : 0 < K) (w o : BaseFloat) :
    ∀ N, 0 < N →
      runUpdates K w o ObjectiveFunctionInfo.init (List.range N) =
        some (stateAfter K w o N,
              (List.range ((N - 1) / K)).map (flushSpec K w o)) := by
  intro N hN
  induction N, hN using Nat.le_induction with
  | base => simpa [Nat.zero_div] using stateAfter_one K w o
  | succ N hN1 ih =>
    have hd1 : (N - 1) / K * K ≤ N - 1 := Nat.div_mul_le_self _ _
    have hsd := Nat.succ_div (N - 1) K
    rw [Nat.sub_add_cancel hN1] at hsd
    rw [List.range_succ, runUpdates_append]
    by_cases hdvd : K ∣ N
    · -- counter N starts a new phase: the completed phase is flushed
      rw [if_pos hdvd] at hsd
      have hq : N / K * K = N := Nat.div_mul_cancel hdvd
      have hb : N / K * K = (N - 1) / K * K + K := by
        rw [hsd, Nat.add_mul, one_mul]
      have hpcN : phaseCount K N = K := by
        unfold phaseCount
        omega
      have hpc1 : phaseCount K (N + 1) = 1 := by
        unfold phaseCount
        rw [Nat.add_sub_cancel]
        omega
      have hupd := UpdateStats_advance_phase (stateAfter K w o N) K N w o 0
        (by simp only [stateAfter]; omega) (by simp only [stateAfter]; omega)
      simp only [ih, runUpdates_single, hupd, Option.toList]
      refine congrArg some (congrArg₂ Prod.mk ?_ ?_)
      · simp only [stateAfter]
        rw [ObjectiveFunctionInfo.mk.injEq]
        refine ⟨?_, ?_, ?_, ?_, ?_, ?_, ?_⟩
        · rw [Nat.add_sub_cancel]
        · push_cast; ring
        · push_cast; ring
        · ring
        · rw [hpc1]; push_cast; ring
        · rw [hpc1]; push_cast; ring
        · ring
      · have hrs : (N + 1 - 1) / K = (N - 1) / K + 1 := by
          rw [Nat.add_sub_cancel]; omega
        rw [hrs, List.range_succ, List.map_append, List.map_singleton]
        refine congrArg _ (congrArg (fun x => [x]) ?_)
        simp only [ObjectiveFunctionInfo.PrintStatsForThisPhase, stateAfter,
                   flushSpec, hpcN]
    · -- counter N stays in the current phase: no flush
      rw [if_neg hdvd] at hsd
      have hdiv : N / K = (N - 1) / K := by omega
      have hpc : phaseCount K (N + 1) = phaseCount K N + 1 := by
        unfold phaseCount
        rw [Nat.add_sub_cancel, hdiv]
        omega
      have hupd := UpdateStats_same_phase (stateAfter K w o N) K N w o 0
        (by simp only [stateAfter]; omega)
      simp only [ih, runUpdates_single, hupd, Option.toList, List.append_nil]
      refine congrArg some (congrArg₂ Prod.mk ?_ ?_)
      · simp only [stateAfter]
        rw [ObjectiveFunctionInfo.mk.injEq]
        refine ⟨?_, ?_, ?_, ?_, ?_, ?_, ?_⟩
        · rw [Nat.add_sub_cancel]; omega
        · push_cast; ring
        · push_cast; ring
        · ring
        · rw [hpc]; push_cast; ring
        · rw [hpc]; push_cast; ring
        · ring
      · rw [Nat.add_sub_cancel, hdiv]

/-! ### Claim theorems -/

/-- C1: for every completing call to `Train`: on a backstitch boundary
(`backstitch_training_scale > 0` and the minibatch counter divisible by
`backstitch_training_interval`) exactly two sub-steps run, first tagged
backstitch then tagged normal, with the pseudo-random source reseeded to the
identical value `base_seed + minibatch_counter` immediately before each;
otherwise exactly one sub-step tagged normal runs with no reseeding.  In
both branches the lifetime minibatch counter increases by exactly 1. -/
theorem train_backstitch_structure (config : NnetTrainerOptions)
    (s : TrainerState) (ev : List TrainEvent) (s' : TrainerState)
    (h : NnetTrainer.Train config s = some (ev, s')) :
    (isBackstitchBoundary config s.num_minibatches_processed →
        ev = [TrainEvent.freezeNaturalGradient true,
              TrainEvent.srandCall (s.srand_seed + s.num_minibatches_processed),
              TrainEvent.resetGenerators,
              TrainEvent.trainInternal true,
              TrainEvent.freezeNaturalGradient false,
              TrainEvent.srandCall (s.srand_seed + s.num_minibatches_processed),
              TrainEvent.resetGenerators,
              TrainEvent.trainInternal false]) ∧
    (¬ isBackstitchBoundary config s.num_minibatches_processed →
        ev = [TrainEvent.trainInternal false]) ∧
    s'.num_minibatches_processed = s.num_minibatches_processed + 1 := by
  unfold NnetTrainer.Train at h
  by_cases hb : isBackstitchBoundary config s.num_minibatches_processed
  · rw [if_pos hb] at h
    by_cases hm : config.momentum = 0
    · rw [if_pos hm] at h
      simp only [Option.some.injEq, Prod.mk.injEq] at h
      obtain ⟨hev, hs⟩ := h
      refine ⟨fun _ => hev.symm, fun hnb => absurd hb hnb, ?_⟩
      rw [← hs]
    · rw [if_neg hm] at h
      exact absurd h (by simp)
  · rw [if_neg hb] at h
    simp only [Option.some.injEq, Prod.mk.injEq] at h
    obtain ⟨hev, hs⟩ := h
    refine ⟨fun hbb => absurd hbb hb, fun _ => hev.symm, ?_⟩
    rw [← hs]

/-- C1 witness: a concrete backstitch-boundary call. -/
theorem train_backstitch_structure_witness :
    (isBackstitchBoundary exCfgBackstitch exSt0.num_minibatches_processed →
        exEvB = [TrainEvent.freezeNaturalGradient true,
                 TrainEvent.srandCall (exSt0.srand_seed + exSt0.num_minibatches_processed),
                 TrainEvent.resetGenerators,
                 TrainEvent.trainInternal true,
                 TrainEvent.freezeNaturalGradient false,
                 TrainEvent.srandCall (exSt0.srand_seed + exSt0.num_minibatches_processed),
                 TrainEvent.resetGenerators,
                 TrainEvent.trainInternal false]) ∧
    (¬ isBackstitchBoundary exCfgBackstitch exSt0.num_minibatches_processed →
        exEvB = [TrainEvent.trainInternal false]) ∧
    exSt1.num_minibatches_processed = exSt0.num_minibatches_processed + 1 :=
  train_backstitch_structure exCfgBackstitch exSt0 exEvB exSt1 (by
    have hb : isBackstitchBoundary exCfgBackstitch exSt0.num_minibatches_processed :=
      ⟨by norm_num [exCfgBackstitch], by norm_num [exCfgBackstitch, exSt0]⟩
    unfold NnetTrainer.Train
    rw [if_pos hb, if_pos (show exCfgBackstitch.momentum = 0 from rfl)]
    norm_num [exSt0, exEvB, exSt1])

/-- C2: the effective update parameters `(max_change_scale, scale_adding,
scale_delta_after)` of a sub-step are `(1, 1 − momentum, momentum)` off a
backstitch boundary, `(backstitch_scale, −backstitch_scale, 0)` on a
boundary for the backstitch sub-step, and `(1 + backstitch_scale,
1 + backstitch_scale, 0)` on a boundary for the normal sub-step. -/
theorem train_internal_scales_spec (config : NnetTrainerOptions)
    (num : Nat) (is_bs : Bool) :
    (¬ isBackstitchBoundary config num →
        trainInternalScales config num is_bs
          = (1, 1 - config.momentum, config.momentum)) ∧
    (isBackstitchBoundary config num → is_bs = true →
        trainInternalScales config num is_bs
          = (config.backstitch_training_scale,
             -config.backstitch_training_scale, 0)) ∧
    (isBackstitchBoundary config num → is_bs = false →
        trainInternalScales config num is_bs
          = (1 + config.backstitch_training_scale,
             1 + config.backstitch_training_scale, 0)) := by
  unfold trainInternalScales
  refine ⟨fun hnb => ?_, fun hb hbs => ?_, fun hb hbs => ?_⟩
  · rw [if_neg hnb]
  · subst hbs; rw [if_pos hb]; rfl
  · subst hbs; rw [if_pos hb]; rfl

/-- C2 witness: the backstitch sub-step of a boundary minibatch with
`backstitch_training_scale = 1/2`. -/
theorem train_internal_scales_spec_witness :
    trainInternalScales exCfgBackstitch 0 true = (1/2, -(1/2), 0) :=
  (train_internal_scales_spec exCfgBackstitch 0 true).2.1
    ⟨by norm_num [exCfgBackstitch], by norm_num [exCfgBackstitch]⟩ rfl

/-- C3: after the update engine runs, on success the delta model is scaled
by exactly `scale_delta_after` (so with momentum `m` off a backstitch
boundary the buffer retains `m` times its contents), and on failure it is
scaled by `0`, i.e. the accumulated delta is discarded entirely. -/
theorem delta_scaling_after_update (success : Bool)
    (scale_delta_nnet : BaseFloat) (delta_nnet : List BaseFloat)
    (config : NnetTrainerOptions) (num : Nat) :
    (success = true →
        trainInternalDeltaAfter success scale_delta_nnet delta_nnet
          = ScaleNnet scale_delta_nnet delta_nnet) ∧
    (success = false →
        trainInternalDeltaAfter success scale_delta_nnet delta_nnet
          = List.replicate delta_nnet.length 0) ∧
    (¬ isBackstitchBoundary config num →
        trainInternalDeltaAfter true (trainInternalScales config num false).2.2
            delta_nnet
          = ScaleNnet config.momentum delta_nnet) := by
  refine ⟨fun hs => ?_, fun hs => ?_, fun hnb => ?_⟩
  · subst hs; rfl
  · subst hs
    show ScaleNnet 0 delta_nnet = _
    unfold ScaleNnet
    simp
  · show ScaleNnet (trainInternalScales config num false).2.2 delta_nnet = _
    unfold trainInternalScales
    rw [if_neg hnb]

/-- C3 witness: a failed update discards a concrete delta buffer. -/
theorem delta_scaling_after_update_witness :
    trainInternalDeltaAfter false 3 [2, 5] = List.replicate 2 0 :=
  (delta_scaling_after_update false 3 [2, 5] exCfgBackstitch 0).2.1 rfl

/-- C4: for a Linear objective, the sparse, dense and compressed encodings
of the same logical supervision matrix produce identical results against the
same output: `totalWeight` is the sum of all entries of the dense view,
`totalObjective` is the elementwise dot product of output and supervision,
and the derivative fed back (when requested) is the dense materialization of
the supervision in all three cases. -/
theorem linear_encoding_equivalence (sm : SparseM) (dm out : DenseM)
    (supply_deriv : Bool) (hwf : sm.WF) (hdm : sm.toDense = dm)
    (hout : out.WF) (hcols : out.numCols = sm.numCols) :
    ComputeObjectiveFunction (GeneralMatrix.sparseMat sm)
        ObjectiveType.kLinear supply_deriv out
      = some (matSum dm, traceMatMat out dm,
              if supply_deriv then some dm else none) ∧
    ComputeObjectiveFunction (GeneralMatrix.fullMat dm)
        ObjectiveType.kLinear supply_deriv out
      = some (matSum dm, traceMatMat out dm,
              if supply_deriv then some dm else none) ∧
    ComputeObjectiveFunction (GeneralMatrix.compressedMat dm)
        ObjectiveType.kLinear supply_deriv out
      = some (matSum dm, traceMatMat out dm,
              if supply_deriv then some dm else none) := by
  subst hdm
  have hc : out.numCols = sm.toDense.numCols := hcols
  refine ⟨?_, ?_, ?_⟩ <;>
    simp [ComputeObjectiveFunction, GeneralMatrix.NumCols, hcols, hc,
          matSum_toDense sm hwf, traceMatSmat_eq_toDense out sm hwf hout hcols,
          show sm.toDense.numCols = sm.numCols from rfl]

/-- C4 witness: the spec's 1×4 example with mass `1.0` at column 2 in all
three encodings. -/
theorem linear_encoding_equivalence_witness :
    ComputeObjectiveFunction (GeneralMatrix.sparseMat exSparse)
        ObjectiveType.kLinear true exOut
      = ComputeObjectiveFunction (GeneralMatrix.fullMat exDense)
          ObjectiveType.kLinear true exOut ∧
    ComputeObjectiveFunction (GeneralMatrix.compressedMat exDense)
        ObjectiveType.kLinear true exOut
      = some (1, 30, some exDense) := by
  have h := linear_encoding_equivalence exSparse exDense exOut true
    (by unfold SparseM.WF exSparse; decide) rfl
    (by unfold DenseM.WF exOut; decide) rfl
  refine ⟨h.1.trans h.2.1.symm, h.2.2.trans ?_⟩
  norm_num [matSum, exDense, traceMatMat, exOut, dotRow]

/-- C5: for a Quadratic objective, `totalObjective` is `−0.5` times the sum
of squared elementwise differences `(supervision − output)`, `totalWeight`
is the supervision's row count, and the derivative fed back (when requested)
is exactly `supervision − output`; in particular when the supervision equals
the output elementwise, `totalObjective = 0` and `totalWeight = numRows`. -/
theorem quadratic_objective_spec (sup : GeneralMatrix) (out : DenseM)
    (supply_deriv : Bool) (hcols : out.numCols = sup.NumCols) :
    ComputeObjectiveFunction sup ObjectiveType.kQuadratic supply_deriv out
      = some ((sup.NumRows : BaseFloat),
              -(1/2) * sumSq (matSub sup.toDense out),
              if supply_deriv then some (matSub sup.toDense out) else none) ∧
    (∀ m : DenseM,
      ComputeObjectiveFunction (GeneralMatrix.fullMat m)
          ObjectiveType.kQuadratic supply_deriv m
        = some ((m.numRows : BaseFloat), 0,
                if supply_deriv then some (matSub m m) else none)) := by
  constructor
  · simp [ComputeObjectiveFunction, hcols, traceMatMat_self]
  · intro m
    simp [ComputeObjectiveFunction, GeneralMatrix.NumCols, GeneralMatrix.toDense,
          GeneralMatrix.NumRows, DenseM.numRows, traceMatMat_self,
          sumSq_matSub_self]

/-- C5 witness: a concrete 1×2 quadratic example (`objf = −5/2`) obtained
from the claim theorem. -/
theorem quadratic_objective_spec_witness :
    ComputeObjectiveFunction (GeneralMatrix.fullMat exSupQ)
        ObjectiveType.kQuadratic true exOutQ
      = some (1, -(5/2), some (matSub exSupQ exOutQ)) := by
  have h := (quadratic_objective_spec (GeneralMatrix.fullMat exSupQ) exOutQ
    true rfl).1
  refine h.trans ?_
  norm_num [GeneralMatrix.NumRows, GeneralMatrix.toDense, exSupQ, exOutQ,
            sumSq, matSub]

/-- C6: `ComputeObjectiveFunction` fails fatally if and only if the
supervision's column count differs from the output's column count or the
objective kind is neither Linear nor Quadratic; otherwise it returns a
weight and objective without raising. -/
theorem compute_objective_fatal_iff (sup : GeneralMatrix)
    (ty : ObjectiveType) (sd : Bool) (out : DenseM) :
    ComputeObjectiveFunction sup ty sd out = none ↔
      (out.numCols ≠ sup.NumCols ∨
        (ty ≠ ObjectiveType.kLinear ∧ ty ≠ ObjectiveType.kQuadratic)) := by
  by_cases h : out.numCols = sup.NumCols
  · cases ty <;> cases sup <;> simp [ComputeObjectiveFunction, h]
  · simp [ComputeObjectiveFunction, h]

/-- C7 counterexample: with `momentum = 1/2 > 0` and
`backstitch_training_scale = 1/2 > 0` the constructor succeeds, so the claim
that such a trainer fatally fails at construction time is false on the code
(the constructor asserts only `momentum ≥ 0` and `max_param_change ≥ 0`). -/
theorem construct_backstitch_momentum_cex :
    0 < exCfgBadPair.momentum ∧ 0 < exCfgBadPair.backstitch_training_scale ∧
    NnetTrainer.construct exCfgBadPair 0 ≠ none := by
  refine ⟨by norm_num [exCfgBadPair], by norm_num [exCfgBadPair], ?_⟩
  unfold NnetTrainer.construct
  rw [if_pos ⟨by norm_num [exCfgBadPair], by norm_num [exCfgBadPair]⟩]
  simp

/-- C7 (amended): constructing a trainer with both `momentum > 0` and
`backstitch_training_scale > 0` succeeds (construction only asserts
`momentum ≥ 0` and `max_param_change ≥ 0`); the backstitch/momentum
incompatibility is enforced inside `Train` instead: the first call whose
minibatch counter is a backstitch boundary fails fatally, before any
sub-step runs. -/
theorem construct_backstitch_momentum_amended (config : NnetTrainerOptions)
    (seed : Nat) (s : TrainerState)
    (hm : 0 < config.momentum) (hmc : 0 ≤ config.max_param_change)
    (hbs : 0 < config.backstitch_training_scale)
    (hb : s.num_minibatches_processed % config.backstitch_training_interval = 0) :
    NnetTrainer.construct config seed
      = some { num_minibatches_processed := 0, srand_seed := seed } ∧
    NnetTrainer.Train config s = none := by
  constructor
  · unfold NnetTrainer.construct
    rw [if_pos ⟨le_of_lt hm, hmc⟩]
  · unfold NnetTrainer.Train
    rw [if_pos ⟨hbs, hb⟩, if_neg (by exact ne_of_gt hm)]

/-- C7 witness: the amended claim at the concrete bad configuration. -/
theorem construct_backstitch_momentum_amended_witness :
    NnetTrainer.construct exCfgBadPair 0
      = some { num_minibatches_processed := 0, srand_seed := 0 } ∧
    NnetTrainer.Train exCfgBadPair
        { num_minibatches_processed := 0, srand_seed := 0 } = none :=
  construct_backstitch_momentum_amended exCfgBadPair 0
    { num_minibatches_processed := 0, srand_seed := 0 }
    (by norm_num [exCfgBadPair]) (by norm_num [exCfgBadPair])
    (by norm_num [exCfgBadPair]) (by norm_num [exCfgBadPair])

/-- C8 counterexample: with `N = K = 1` a single `UpdateStats` call produces
`0` flushes, not `⌊N/K⌋ = 1` as the claim states — the first phase is
complete but not yet flushed, since flushing happens only when a later
phase's minibatch arrives. -/
theorem update_stats_flush_count_cex :
    ¬ ((runUpdates 1 1 1 ObjectiveFunctionInfo.init (List.range 1)).map
        (fun r => r.2.length) = some (1 / 1)) := by
  norm_num [runUpdates, ObjectiveFunctionInfo.UpdateStats,
    ObjectiveFunctionInfo.init, List.range_succ, List.range_zero]

/-- C8 witness: `N = 5`, `K = 2`: exactly `⌊(5−1)/2⌋ = 2` flushes with
ranges `[0,1]` and `[2,3]`. -/
theorem update_stats_phase_flushes_witness :
    runUpdates 2 1 2 ObjectiveFunctionInfo.init (List.range 5) =
      some (stateAfter 2 1 2 5, (List.range 2).map (flushSpec 2 1 2)) :=
  update_stats_phase_flushes 2 (by norm_num) 1 2 5 (by norm_num)

/-- C9: an `UpdateStats` call is fatal exactly when the computed phase index
is strictly smaller than the stored current phase; every non-fatal call
leaves the stored phase no smaller than before, and when the phase advances
the completed phase is flushed and the per-phase accumulators are reset to
zero before accumulating this minibatch (so afterwards they hold exactly
this minibatch's contributions). -/
theorem update_stats_phase_monotone (info : ObjectiveFunctionInfo)
    (mpp c : Nat) (w o a : BaseFloat) :
    (info.UpdateStats mpp c w o a = none ↔ c / mpp < info.current_phase) ∧
    (∀ info' fl, info.UpdateStats mpp c w o a = some (info', fl) →
        info.current_phase ≤ info'.current_phase ∧
        (info.current_phase < c / mpp →
            fl = some (info.PrintStatsForThisPhase mpp) ∧
            info'.current_phase = c / mpp ∧
            info'.tot_weight_this_phase = 0 + w ∧
            info'.tot_objf_this_phase = 0 + o ∧
            info'.tot_aux_objf_this_phase = 0 + a)) := by
  by_cases h1 : c / mpp = info.current_phase
  · rw [UpdateStats_same_phase info mpp c w o a h1]
    refine ⟨by simp; omega, ?_⟩
    intro info' fl h
    simp only [Option.some.injEq, Prod.mk.injEq] at h
    obtain ⟨hi, _⟩ := h
    rw [← hi]
    exact ⟨le_refl _, fun hlt => absurd h1 (by omega)⟩
  · by_cases h2 : info.current_phase < c / mpp
    · rw [UpdateStats_advance_phase info mpp c w o a h1 h2]
      refine ⟨by simp; omega, ?_⟩
      intro info' fl h
      simp only [Option.some.injEq, Prod.mk.injEq] at h
      obtain ⟨hi, hf⟩ := h
      rw [← hi]
      exact ⟨le_of_lt h2, fun _ => ⟨hf.symm, rfl, rfl, rfl, rfl⟩⟩
    · rw [UpdateStats_backward_phase info mpp c w o a (by omega)]
      refine ⟨⟨fun _ => by omega, fun _ => rfl⟩, ?_⟩
      intro info' fl h
      exact absurd h (by simp)

/-- C9 witness: a backward phase (counter `0`, stored phase `2`) is fatal. -/
theorem update_stats_phase_monotone_witness :
    ObjectiveFunctionInfo.UpdateStats ⟨2, 0, 0, 0, 0, 0, 0⟩ 1 0 1 1 0 = none :=
  (update_stats_phase_monotone ⟨2, 0, 0, 0, 0, 0, 0⟩ 1 0 1 1 0).1.mpr
    (by decide)

/-- C10: the trainer-level `PrintTotalStats` returns true iff some
accuracy-statistics entry has nonzero lifetime weight; the boolean
accumulated over the objective-statistics entries is discarded by the
`ans = false` reset, so with nonzero-weight objective entries and an empty
accuracy map it returns false. -/
theorem print_total_stats_return (objf_info accuracy_info : List ObjectiveFunctionInfo) :
    (NnetTrainer.PrintTotalStats objf_info accuracy_info
        = accuracy_info.any (fun i => i.PrintTotalStats)) ∧
    ((∀ i ∈ objf_info, i.tot_weight ≠ 0) → accuracy_info = [] →
        NnetTrainer.PrintTotalStats objf_info accuracy_info = false) := by
  have h : NnetTrainer.PrintTotalStats objf_info accuracy_info
      = accuracy_info.any (fun i => i.PrintTotalStats) := by
    unfold NnetTrainer.PrintTotalStats
    rw [foldl_or_any (fun i => i.PrintTotalStats) accuracy_info false]
    simp
  refine ⟨h, fun _ hacc => ?_⟩
  rw [h, hacc]
  rfl

/-- C10 witness: an objective entry with lifetime weight `1` and an empty
accuracy map yield `false`. -/
theorem print_total_stats_return_witness :
    NnetTrainer.PrintTotalStats [⟨0, 1, 1, 0, 1, 1, 0⟩] [] = false :=
  (print_total_stats_return [⟨0, 1, 1, 0, 1, 1, 0⟩] []).2 (by norm_num) rfl

end KaldiNnet3
